import Mathlib

/-!
Verification development for the `abeilles` repository.

Shallow embedding of the two functions the specification formalises:

* `get_gdd_from_open_meteo` (loaddata2.py): after fetching the Open-Meteo
  JSON response, the script builds a DataFrame from the daily series,
  computes `t_mean = (t_max + t_min) / 2`, the daily contribution
  `gdd_daily = (t_mean - t_base).clip(lower=0)` and returns the sum.
  The response is modelled as an optional daily series (a missing
  "daily" key raises a KeyError in Python); columns of unequal length
  make `pd.DataFrame` raise a ValueError.  Temperatures are modelled
  as rationals.

* `generer_urls_parquet_quotidien` (loaddata3.py): builds the list of
  period labels with four conditional appends, then one loop producing
  a raw URL and a prepared URL per label (modelled as a fold carrying
  both accumulator lists, exactly like the Python loop).
-/

namespace Abeilles

/-- The "daily" object of the Open-Meteo JSON response: a time column and
the two temperature columns requested by the script. -/
structure DailySeries where
  time : List String
  temperature_2m_max : List ℚ
  temperature_2m_min : List ℚ
deriving DecidableEq, Repr

/-- The JSON response body: the "daily" key may be absent (e.g. the API
returned an error object), in which case the Python subscript raises. -/
structure OpenMeteoResponse where
  daily : Option DailySeries
deriving DecidableEq, Repr

/-- Untyped Python runtime failures that the script can raise while
processing the response. -/
inductive PyError where
  | keyError (key : String)
  | valueError
deriving DecidableEq, Repr

/-- `Series.clip(lower=lo)` applied to one entry. -/
def clip_lower (lo x : ℚ) : ℚ := max lo x

/-- Line 33 of loaddata2.py: `temps['t_mean'] = (temps['t_max'] + temps['t_min']) / 2`. -/
def t_mean (t_max t_min : ℚ) : ℚ := (t_max + t_min) / 2

/-- Line 34 of loaddata2.py, one row: `(t_mean - t_base).clip(lower=0)`. -/
def gdd_daily (t_base t_max t_min : ℚ) : ℚ :=
  clip_lower 0 (t_mean t_max t_min - t_base)

/-- Lines 33-35 of loaddata2.py on the zipped temperature columns:
the `t_mean` column, then the `gdd_daily` column, then its sum. -/
def gdd_cumul (t_base : ℚ) (temps : List (ℚ × ℚ)) : ℚ :=
  let t_mean_col := temps.map fun p => t_mean p.1 p.2
  let gdd_daily_col := t_mean_col.map fun m => clip_lower 0 (m - t_base)
  gdd_daily_col.sum

/-- The computation of `get_gdd_from_open_meteo` on the fetched response
(the HTTP call itself is outside the embedding).  A response without a
"daily" object raises `KeyError`; a DataFrame built from columns of
unequal length raises `ValueError`; otherwise the function returns the
summed `gdd_daily` column. -/
def get_gdd_from_open_meteo (data : OpenMeteoResponse) (t_base : ℚ) :
    Except PyError ℚ :=
  match data.daily with
  | none => .error (.keyError "daily")
  | some d =>
    if d.time.length = d.temperature_2m_max.length ∧
        d.temperature_2m_max.length = d.temperature_2m_min.length then
      .ok (gdd_cumul t_base (d.temperature_2m_max.zip d.temperature_2m_min))
    else
      .error .valueError

/-- The daily contribution written the way the specification states it:
`gdd(d) = max(0, (t_max(d) + t_min(d)) / 2 - t_base)`.  Used to compare
the code's computation with the spec's formula. -/
def gdd_daily_spec (t_base t_max t_min : ℚ) : ℚ :=
  max 0 ((t_max + t_min) / 2 - t_base)

/- ## loaddata3.py -/

/-- Module constant of loaddata3.py. -/
def base_url : String := "https://object.files.data.gouv.fr/meteofrance-mistermeteo/"

/-- Lines 36-58 of loaddata3.py: the period-label list built by four
conditional appends. -/
def periodes (annee_debut annee_fin : Int) : List String :=
  (if annee_debut ≤ 1949 then ["previous-1950"] else []) ++
  (if annee_debut ≤ 1989 ∧ 1950 ≤ annee_fin then
    ["1950-1959", "1960-1969", "1970-1979", "1980-1989"] else []) ++
  (if annee_debut ≤ 2021 ∧ 1990 ≤ annee_fin then
    ["1990-1999", "2000-2009", "2010-2019", "2020-2021"] else []) ++
  (if 2022 ≤ annee_fin then
    ["latest-2022-2023", "latest-2023-2024", "latest-2024-2025"] else [])

/-- `url_brut` of the loop body: `f"{base_url}quotidien.{periode}.parquet"`. -/
def url_brut (periode : String) : String :=
  base_url ++ "quotidien." ++ periode ++ ".parquet"

/-- `url_prepared` of the loop body: `f"{base_url}quotidien.{periode}.prepared.parquet"`. -/
def url_prepared (periode : String) : String :=
  base_url ++ "quotidien." ++ periode ++ ".prepared.parquet"

/-- Lines 60-73 of loaddata3.py: the loop appending one raw URL and one
prepared URL per period to the two result lists. -/
def generer_urls_parquet_quotidien (annee_debut annee_fin : Int) :
    List String × List String :=
  (periodes annee_debut annee_fin).foldl
    (fun acc periode => (acc.1 ++ [url_brut periode], acc.2 ++ [url_prepared periode]))
    ([], [])

/-- All labels the function can ever emit, in the order the four blocks
append them. -/
def toutes_periodes : List String :=
  ["previous-1950",
   "1950-1959", "1960-1969", "1970-1979", "1980-1989",
   "1990-1999", "2000-2009", "2010-2019", "2020-2021",
   "latest-2022-2023", "latest-2023-2024", "latest-2024-2025"]

/- ## Helper lemmas -/

theorem gdd_cumul_append (t_base : ℚ) (l₁ l₂ : List (ℚ × ℚ)) :
    gdd_cumul t_base (l₁ ++ l₂) = gdd_cumul t_base l₁ + gdd_cumul t_base l₂ := by
  simp [gdd_cumul, List.map_append, List.sum_append]

theorem gdd_cumul_nonneg (t_base : ℚ) (l : List (ℚ × ℚ)) :
    0 ≤ gdd_cumul t_base l := by
  refine List.sum_nonneg ?_
  intro x hx
  simp only [List.mem_map] at hx
  obtain ⟨m, _, rfl⟩ := hx
  exact le_max_left 0 _

theorem generer_urls_foldl (ps : List String) (acc : List String × List String) :
    ps.foldl
      (fun acc periode => (acc.1 ++ [url_brut periode], acc.2 ++ [url_prepared periode]))
      acc
    = (acc.1 ++ ps.map url_brut, acc.2 ++ ps.map url_prepared) := by
  induction ps generalizing acc with
  | nil => simp
  | cons p ps ih => simp [List.foldl_cons, ih]

theorem generer_urls_eq_map (annee_debut annee_fin : Int) :
    generer_urls_parquet_quotidien annee_debut annee_fin =
      ((periodes annee_debut annee_fin).map url_brut,
       (periodes annee_debut annee_fin).map url_prepared) := by
  unfold generer_urls_parquet_quotidien
  rw [generer_urls_foldl]
  simp

theorem ite_sublist (c : Prop) [Decidable c] (l : List String) :
    (if c then l else []).Sublist l := by
  split
  · exact List.Sublist.refl l
  · exact List.nil_sublist l

theorem periodes_sublist (annee_debut annee_fin : Int) :
    (periodes annee_debut annee_fin).Sublist toutes_periodes := by
  unfold periodes toutes_periodes
  have h1 := ite_sublist (annee_debut ≤ 1949) ["previous-1950"]
  have h2 := ite_sublist (annee_debut ≤ 1989 ∧ 1950 ≤ annee_fin)
    ["1950-1959", "1960-1969", "1970-1979", "1980-1989"]
  have h3 := ite_sublist (annee_debut ≤ 2021 ∧ 1990 ≤ annee_fin)
    ["1990-1999", "2000-2009", "2010-2019", "2020-2021"]
  have h4 := ite_sublist (2022 ≤ annee_fin)
    ["latest-2022-2023", "latest-2023-2024", "latest-2024-2025"]
  exact ((h1.append h2).append h3).append h4

theorem toutes_periodes_nodup : toutes_periodes.Nodup := by decide

theorem toutes_periodes_brut_nodup : (toutes_periodes.map url_brut).Nodup := by
  decide

theorem toutes_periodes_prepared_nodup : (toutes_periodes.map url_prepared).Nodup := by
  decide

theorem gdd_cumul_eq_map_gdd_daily (t_base : ℚ) (l : List (ℚ × ℚ)) :
    gdd_cumul t_base l = (l.map fun p => gdd_daily t_base p.1 p.2).sum := by
  simp only [gdd_cumul, List.map_map]
  rfl

theorem gdd_daily_eq_spec (t_base t_max t_min : ℚ) :
    gdd_daily t_base t_max t_min = gdd_daily_spec t_base t_max t_min := rfl

/-- The response modelling an empty requested date range: the daily series
is present but holds no records. -/
def reponse_vide : OpenMeteoResponse := ⟨some ⟨[], [], []⟩⟩

/- ## Claims -/

/-- Claim C1: for every daily series of (t_max, t_min) values and every base
temperature t_base, the GDD accumulator returns exactly the sum over all days
of max(0, (t_max + t_min)/2 - t_base). -/
theorem get_gdd_eq_spec_sum (d : DailySeries) (t_base : ℚ)
    (h1 : d.time.length = d.temperature_2m_max.length)
    (h2 : d.temperature_2m_max.length = d.temperature_2m_min.length) :
    get_gdd_from_open_meteo ⟨some d⟩ t_base =
      .ok (((d.temperature_2m_max.zip d.temperature_2m_min).map
        fun p => gdd_daily_spec t_base p.1 p.2).sum) := by
  have h := gdd_cumul_eq_map_gdd_daily t_base
    (d.temperature_2m_max.zip d.temperature_2m_min)
  simp [get_gdd_from_open_meteo, h1, h2, h, gdd_daily_eq_spec]

theorem get_gdd_eq_spec_sum_witness :
    get_gdd_from_open_meteo ⟨some ⟨["2023-01-01", "2023-01-02"], [20, 10], [10, 0]⟩⟩ 5 =
      .ok ((([(20, 10), (10, 0)] : List (ℚ × ℚ)).map
        fun p => gdd_daily_spec 5 p.1 p.2).sum) :=
  get_gdd_eq_spec_sum ⟨["2023-01-01", "2023-01-02"], [20, 10], [10, 0]⟩ 5 rfl rfl

/-- Claim C2 counterexample: on an empty requested date range the function
returns 0 successfully instead of failing with an InvalidRange error. -/
theorem get_gdd_empty_range_returns_zero :
    get_gdd_from_open_meteo reponse_vide 5 = .ok 0 := rfl

/-- Claim C2 amended: the GDD accumulator performs no typed error handling:
an empty date range yields the successful result 0, and a response without
daily records raises an untyped Python KeyError; no DataUnavailable or
InvalidRange failure is ever produced. -/
theorem get_gdd_no_typed_errors (t_base : ℚ) :
    get_gdd_from_open_meteo reponse_vide t_base = .ok 0 ∧
    get_gdd_from_open_meteo ⟨none⟩ t_base = .error (.keyError "daily") := by
  exact ⟨by simp [get_gdd_from_open_meteo, reponse_vide, gdd_cumul], rfl⟩

/-- Claim C3: for every day with t_max ≥ t_min and every t_base, the daily
contribution gdd_daily is greater than or equal to zero. -/
theorem gdd_daily_nonneg (t_base t_max t_min : ℚ) (h : t_min ≤ t_max) :
    0 ≤ gdd_daily t_base t_max t_min :=
  le_max_left 0 _

theorem gdd_daily_nonneg_witness :
    (0 : ℚ) ≤ 10 ∧ (0 : ℚ) ≤ gdd_daily 5 10 0 :=
  ⟨by norm_num, gdd_daily_nonneg 5 10 0 (by norm_num)⟩

/-- Claim C4: for a fixed daily series and fixed t_base, the accumulated sum
over a prefix of the series is monotone non-decreasing in the length of the
prefix: extending the end date never decreases the result. -/
theorem gdd_cumul_monotone_end (t_base : ℚ) (temps : List (ℚ × ℚ)) (n m : ℕ)
    (h : n ≤ m) :
    gdd_cumul t_base (temps.take n) ≤ gdd_cumul t_base (temps.take m) := by
  have hm : m = n + (m - n) := by omega
  have key : temps.take m = temps.take n ++ (temps.drop n).take (m - n) := by
    conv_lhs => rw [hm]
    rw [List.take_add]
  calc gdd_cumul t_base (temps.take n)
      ≤ gdd_cumul t_base (temps.take n) +
          gdd_cumul t_base ((temps.drop n).take (m - n)) := by
        have hnn := gdd_cumul_nonneg t_base ((temps.drop n).take (m - n))
        linarith
    _ = gdd_cumul t_base (temps.take n ++ (temps.drop n).take (m - n)) :=
        (gdd_cumul_append _ _ _).symm
    _ = gdd_cumul t_base (temps.take m) := by rw [key]

theorem gdd_cumul_monotone_end_witness :
    1 ≤ 2 ∧
    gdd_cumul 5 (([(20, 10), (30, 10)] : List (ℚ × ℚ)).take 1) ≤
      gdd_cumul 5 (([(20, 10), (30, 10)] : List (ℚ × ℚ)).take 2) :=
  ⟨by decide, gdd_cumul_monotone_end 5 [(20, 10), (30, 10)] 1 2 (by decide)⟩

/-- Claim C5: GDD accumulation is additive over a split of the range:
accumulating the first mid days and the remaining days separately and adding
the two results equals accumulating over the whole series. -/
theorem gdd_cumul_additive_split (t_base : ℚ) (temps : List (ℚ × ℚ)) (mid : ℕ) :
    gdd_cumul t_base (temps.take mid) + gdd_cumul t_base (temps.drop mid) =
      gdd_cumul t_base temps := by
  rw [← gdd_cumul_append, List.take_append_drop]

/-- Claim C6: for the year range (1990, 2020) the generated label list is
exactly ["1990-1999", "2000-2009", "2010-2019", "2020-2021"], without
duplicates and without extra labels. -/
theorem periodes_1990_2020 :
    periodes 1990 2020 = ["1990-1999", "2000-2009", "2010-2019", "2020-2021"] ∧
    (periodes 1990 2020).Nodup := by
  exact ⟨rfl, by decide⟩

/-- Claim C7: for every year range lying entirely before 1950 the generated
label list is exactly ["previous-1950"]. -/
theorem periodes_avant_1950 (annee_debut annee_fin : Int)
    (hd : annee_debut ≤ annee_fin) (hf : annee_fin ≤ 1949) :
    periodes annee_debut annee_fin = ["previous-1950"] := by
  have h1 : annee_debut ≤ 1949 := le_trans hd hf
  have h2 : ¬(1950 ≤ annee_fin) := by omega
  have h3 : ¬(1990 ≤ annee_fin) := by omega
  have h4 : ¬(2022 ≤ annee_fin) := by omega
  simp [periodes, h1, h2, h3, h4]

theorem periodes_avant_1950_witness :
    (1900 : Int) ≤ 1940 ∧ (1940 : Int) ≤ 1949 ∧
    periodes 1900 1940 = ["previous-1950"] :=
  ⟨by decide, by decide, periodes_avant_1950 1900 1940 (by decide) (by decide)⟩

/-- Claim C8: for every requested year range the function produces the raw
URL base_url ++ "quotidien." ++ label ++ ".parquet" and the prepared URL
base_url ++ "quotidien." ++ label ++ ".prepared.parquet" for the same labels
in the same order, so both lists have the same length. -/
theorem generer_urls_deux_variantes (annee_debut annee_fin : Int) :
    (generer_urls_parquet_quotidien annee_debut annee_fin).1 =
      (periodes annee_debut annee_fin).map url_brut ∧
    (generer_urls_parquet_quotidien annee_debut annee_fin).2 =
      (periodes annee_debut annee_fin).map url_prepared ∧
    (generer_urls_parquet_quotidien annee_debut annee_fin).1.length =
      (generer_urls_parquet_quotidien annee_debut annee_fin).2.length := by
  rw [generer_urls_eq_map]
  simp

/-- Claim C9: for every pair of year arguments the label list is a sublist of
the fixed chronologically ordered table and contains no duplicates, hence both
generated URL lists are duplicate-free as well. -/
theorem periodes_nodup_ordre (annee_debut annee_fin : Int) :
    (periodes annee_debut annee_fin).Sublist toutes_periodes ∧
    (periodes annee_debut annee_fin).Nodup ∧
    (generer_urls_parquet_quotidien annee_debut annee_fin).1.Nodup ∧
    (generer_urls_parquet_quotidien annee_debut annee_fin).2.Nodup := by
  have hs := periodes_sublist annee_debut annee_fin
  refine ⟨hs, List.Nodup.sublist hs toutes_periodes_nodup, ?_, ?_⟩
  · simp only [generer_urls_eq_map]
    exact List.Nodup.sublist (hs.map url_brut) toutes_periodes_brut_nodup
  · simp only [generer_urls_eq_map]
    exact List.Nodup.sublist (hs.map url_prepared) toutes_periodes_prepared_nodup

/-- Claim C10: the function validates nothing: for the inverted year range
(2000, 1990) it still selects the 1990-2021 labels and returns two non-empty
URL lists of length 4 instead of reporting an invalid or empty range. -/
theorem generer_urls_sans_validation :
    periodes 2000 1990 = ["1990-1999", "2000-2009", "2010-2019", "2020-2021"] ∧
    (generer_urls_parquet_quotidien 2000 1990).1.length = 4 ∧
    (generer_urls_parquet_quotidien 2000 1990).2.length = 4 := by
  refine ⟨rfl, ?_, ?_⟩ <;> · simp [generer_urls_eq_map]; rfl

end Abeilles
